import Mathlib

/-!
Verification development for a repository of four standalone Python scripts:
a face-similarity comparator (`compare_faces.py`), a face-personalization
RunPod client (`infinitePersonImageGen.py`) and two Hugging Face
text-to-image clients (`stable_diffusion_image_gen.py`,
`newPersonImageGen.py`).

The scripts are shallowly embedded: environment variables become `Option
String` parameters, HTTP traffic becomes explicit response parameters
together with a counter of issued requests, the filesystem becomes explicit
state, and the floating-point OpenCV arithmetic is modelled over the real
numbers.
-/

/-! ## Statistics used by the OpenCV calls in `compare_faces.py`

`cv2.compareHist(..., HISTCMP_CORREL)` is documented as the Pearson-style
correlation
`d(H1,H2) = ∑ (H1-H̄1)(H2-H̄2) / sqrt(∑ (H1-H̄1)² ∑ (H2-H̄2)²)`;
when the denominator vanishes (a constant histogram) OpenCV returns `1`.

`cv2.matchTemplate(img, templ, TM_CCOEFF_NORMED)` on two equally sized
inputs produces the single coefficient
`∑ T′·I′ / sqrt(∑ T′² ∑ I′²)` with `T′`, `I′` the mean-centred template and
image; OpenCV guards only the *template*: a template with vanishing variance
yields a result of `1`, while a zero numerator over a zero denominator
(constant image window, non-constant template) yields `0` — which agrees
with Lean's `x / 0 = 0` convention. -/

/-- Arithmetic mean of a finite family of reals. -/
noncomputable def fmean {ι : Type} [Fintype ι] (x : ι → ℝ) : ℝ :=
  (∑ i, x i) / (Fintype.card ι)

/-- Sum of products of deviations from the mean (the shared numerator of
`HISTCMP_CORREL` and `TM_CCOEFF_NORMED`). -/
noncomputable def covSum {ι : Type} [Fintype ι] (x y : ι → ℝ) : ℝ :=
  ∑ i, (x i - fmean x) * (y i - fmean y)

/-- Sum of squared deviations from the mean. -/
noncomputable def sumSqDev {ι : Type} [Fintype ι] (x : ι → ℝ) : ℝ :=
  covSum x x

/-- Model of `cv2.compareHist(h1, h2, cv2.HISTCMP_CORREL)`: documented
correlation formula, returning `1` when the denominator vanishes (OpenCV's
guard). -/
noncomputable def histcmp_correl {ι : Type} [Fintype ι] (x y : ι → ℝ) : ℝ :=
  if sumSqDev x * sumSqDev y = 0 then 1
  else covSum x y / Real.sqrt (sumSqDev x * sumSqDev y)

/-- Model of the single coefficient produced by
`cv2.matchTemplate(img, templ, cv2.TM_CCOEFF_NORMED)` on two equally sized
inputs.  OpenCV returns an all-ones result when the *template* has vanishing
variance; otherwise it computes the documented normalized cross-correlation,
with a vanishing numerator over a vanishing denominator giving `0`
(matching Lean's division-by-zero convention used here). -/
noncomputable def match_template_ccoeff_normed {ι : Type} [Fintype ι]
    (img tmpl : ι → ℝ) : ℝ :=
  if sumSqDev tmpl = 0 then 1
  else covSum img tmpl / Real.sqrt (sumSqDev img * sumSqDev tmpl)

/-! ## `compare_faces.py` -/

/-- Pixel coordinates of a face crop after `cv2.resize(face_roi, (128, 128))`. -/
abbrev Pix : Type := Fin 128 × Fin 128

/-- A 128×128 grayscale face crop (8-bit intensities). -/
abbrev Crop : Type := Pix → Fin 256

/-- Intensities of a crop as real numbers. -/
noncomputable def cropToReal (c : Crop) : Pix → ℝ :=
  fun p => ((c p : ℕ) : ℝ)

/-- Model of `cv2.calcHist([face], [0], None, [256], [0, 256])`: the number
of pixels of each intensity. -/
noncomputable def calcHist (c : Crop) : Fin 256 → ℝ :=
  fun v => ((Finset.univ.filter fun p => c p = v).card : ℝ)

/-- Model of `cv2.normalize(hist, hist, 0, 1, cv2.NORM_MINMAX)`: affinely
map the range `[min, max]` onto `[0, 1]`; a constant histogram is mapped to
the lower bound `0` (OpenCV uses scale factor `0` when `max - min` is
negligible). -/
noncomputable def normalize_minmax (h : Fin 256 → ℝ) : Fin 256 → ℝ :=
  let lo := Finset.univ.inf' Finset.univ_nonempty h
  let hi := Finset.univ.sup' Finset.univ_nonempty h
  fun v => if hi = lo then 0 else (h v - lo) / (hi - lo)

/-- Scoring part of `compute_face_similarity` (lines 53–76): histogram
correlation of the min-max-normalized 256-bin histograms, averaged with the
`TM_CCOEFF_NORMED` template-matching coefficient, where the first crop is
the image and the second the template. -/
noncomputable def face_similarity (c1 c2 : Crop) : ℝ :=
  (histcmp_correl (normalize_minmax (calcHist c1)) (normalize_minmax (calcHist c2))
    + match_template_ccoeff_normed (cropToReal c1) (cropToReal c2)) / 2

/-- Result of `cv2.imread` plus `detectMultiScale` on one path: either the
image cannot be loaded, or a (possibly empty) list of detected face crops. -/
inductive LoadResult where
  | unreadable
  | faces (fs : List Crop)

/-- Model of `detect_face`: raises `ValueError` when the image cannot be
loaded or when zero faces are detected; otherwise returns the first detected
face region (resized to 128×128). -/
def detect_face (env : String → LoadResult) (p : String) : Except String Crop :=
  match env p with
  | .unreadable => .error ("Could not load image: " ++ p)
  | .faces [] => .error ("No face detected in image: " ++ p)
  | .faces (f :: _) => .ok f

/-- Model of `compute_face_similarity(img1_path, img2_path)`: detect a face
in the first image, then in the second, then score; any error is re-raised
wrapped as `Error comparing faces: ...`.  The second component records the
image paths on which `detect_face` was invoked, in order. -/
noncomputable def compute_face_similarity (env : String → LoadResult)
    (p1 p2 : String) : Except String ℝ × List String :=
  match detect_face env p1 with
  | .error e => (.error ("Error comparing faces: " ++ e), [p1])
  | .ok c1 =>
    match detect_face env p2 with
    | .error e => (.error ("Error comparing faces: " ++ e), [p1, p2])
    | .ok c2 => (.ok (face_similarity c1 c2), [p1, p2])

/-- One line of `comparisons.csv`: the header row, or one data row holding
the two image paths and the similarity score (the source formats the score
with 6 decimal places; the numeric value is kept here). -/
inductive CsvLine where
  | header
  | data (left right : String) (score : ℝ)

/-- Model of the CSV block of `main` (lines 107–119): `None` models an
absent `comparisons.csv`.  Opening with mode `'a'` creates the file; the
header row is written only when the file did not exist, and the data row is
appended in both cases. -/
noncomputable def append_comparison (file : Option (List CsvLine))
    (left right : String) (score : ℝ) : List CsvLine :=
  match file with
  | none => [.header, .data left right score]
  | some lines => lines ++ [.data left right score]

/-- State of `comparisons.csv` after `n` successful runs of the comparator
starting from no file, where run `k` appends the row `rows k`. -/
noncomputable def csv_after_runs (rows : Nat → String × String × ℝ) :
    Nat → Option (List CsvLine)
  | 0 => none
  | n + 1 =>
    some (append_comparison (csv_after_runs rows n)
      (rows n).1 (rows n).2.1 (rows n).2.2)

/-- Model of `main` in `compare_faces.py`: read the two environment
variables (raising when absent), check both paths exist on disk, compute
the similarity, and append one CSV row.  The last component counts HTTP
requests issued (this script performs none). -/
noncomputable def compare_main (dPath iPath : Option String)
    (onDisk : String → Bool) (env : String → LoadResult)
    (csv : Option (List CsvLine)) :
    Except String ℝ × Option (List CsvLine) × Nat :=
  match dPath with
  | none => (.error "DEFAULT_PERSON_FACE_IMAGE environment variable must be set", csv, 0)
  | some d =>
    match iPath with
    | none => (.error "INFINITE_PERSON_FACE_IMAGE environment variable must be set", csv, 0)
    | some i =>
      if onDisk d = false then (.error ("Image not found: " ++ d), csv, 0)
      else if onDisk i = false then (.error ("Image not found: " ++ i), csv, 0)
      else
        match (compute_face_similarity env d i).1 with
        | .error e => (.error e, csv, 0)
        | .ok s => (.ok s, some (append_comparison csv d i s), 0)

/-! ## Base64 (Python `base64.b64encode` / `b64decode`)

Modelled as the standard RFC 4648 base64 codec: three bytes become four
alphabet characters, with `=` padding for a final group of one or two
bytes; the decoder is the strict inverse, accepting only well-formed
padded input (the scripts only ever decode well-formed payloads). -/

/-- Base64 alphabet in index order. -/
def b64Alphabet : List Char :=
  ['A', 'B', 'C', 'D', 'E', 'F', 'G', 'H', 'I', 'J', 'K', 'L', 'M',
   'N', 'O', 'P', 'Q', 'R', 'S', 'T', 'U', 'V', 'W', 'X', 'Y', 'Z',
   'a', 'b', 'c', 'd', 'e', 'f', 'g', 'h', 'i', 'j', 'k', 'l', 'm',
   'n', 'o', 'p', 'q', 'r', 's', 't', 'u', 'v', 'w', 'x', 'y', 'z',
   '0', '1', '2', '3', '4', '5', '6', '7', '8', '9', '+', '/']

/-- Character encoding a 6-bit group. -/
def b64Char (n : Nat) : Char :=
  b64Alphabet.getD (n % 64) 'A'

/-- Position of a character in a list, or `none`. -/
def findIdx64 (c : Char) : Nat → List Char → Option Nat
  | _, [] => none
  | i, d :: rest => if d = c then some i else findIdx64 c (i + 1) rest

/-- Value of a base64 alphabet character (`none` for `=` and anything else). -/
def b64Index (c : Char) : Option Nat :=
  findIdx64 c 0 b64Alphabet

/-- Base64 encoding of a byte list (bytes as naturals below 256). -/
def b64encode : List Nat → List Char
  | [] => []
  | [a] => [b64Char (a / 4), b64Char (a % 4 * 16), '=', '=']
  | [a, b] => [b64Char (a / 4), b64Char (a % 4 * 16 + b / 16), b64Char (b % 16 * 4), '=']
  | a :: b :: c :: rest =>
    b64Char (a / 4) :: b64Char (a % 4 * 16 + b / 16) ::
      b64Char (b % 16 * 4 + c / 64) :: b64Char (c % 64) :: b64encode rest

/-- Strict base64 decoding; `none` models the `binascii.Error` raised by
`base64.b64decode` on malformed input. -/
def b64decode : List Char → Option (List Nat)
  | [] => some []
  | w :: x :: y :: z :: rest =>
    match b64Index w, b64Index x with
    | some a, some b =>
      if y = '=' then
        if z = '=' ∧ rest = [] then some [a * 4 + b / 16] else none
      else
        match b64Index y with
        | some c =>
          if z = '=' then
            if rest = [] then some [a * 4 + b / 16, b % 16 * 16 + c / 4] else none
          else
            match b64Index z with
            | some d =>
              match b64decode rest with
              | some t => some ((a * 4 + b / 16) :: (b % 16 * 16 + c / 4) :: (c % 4 * 64 + d) :: t)
              | none => none
            | none => none
        | none => none
    | _, _ => none
  | _ => none

/-- Model of Python `str.split(',')`: cut the character list at every comma
(always producing at least one piece). -/
def splitComma : List Char → List (List Char)
  | [] => [[]]
  | c :: rest =>
    if c = ',' then [] :: splitComma rest
    else
      match splitComma rest with
      | [] => [[c]]
      | p :: ps => (c :: p) :: ps

/-! ## `generate_image` in the two Hugging Face clients

The function is textually identical in `stable_diffusion_image_gen.py`
(lines 14–39) and `newPersonImageGen.py` (lines 18–43); it is embedded
once.  The JSON response is a base64 string, a dict with an `image` field,
or raw bytes. -/

/-- Shapes of the JSON body returned by the inference endpoint that
`generate_image` distinguishes. -/
inductive InferResp where
  | str (cs : List Char)
  | dictImage (cs : List Char)
  | rawBytes (bs : List Nat)

/-- Textual payload handling in `generate_image`: drop everything up to the
first comma when one is present (`image_data.split(',')[1]`), then
base64-decode. -/
def decode_textual (cs : List Char) : Except String (List Nat) :=
  let cs' := if ',' ∈ cs then (splitComma cs).getD 1 [] else cs
  match b64decode cs' with
  | some bs => .ok bs
  | none => .error "binascii.Error"

/-- Model of `generate_image(prompt, api_key, endpoint)` given the HTTP
status code and JSON body of the POST response.  `raise_for_status` raises
for status codes of 400 and above. -/
def generate_image (code : Nat) (resp : InferResp) : Except String (List Nat) :=
  if 400 ≤ code then .error "HTTPError"
  else
    match resp with
    | .str cs => decode_textual cs
    | .dictImage cs => decode_textual cs
    | .rawBytes bs => .ok bs

/-- Prompt list of `stable_diffusion_image_gen.py` (lines 53–64). -/
def sd_prompts : List String :=
  ["A street sign that says \x27STOP\x27 in bold letters",
   "A billboard displaying \x27Welcome to the City\x27 with text",
   "A book cover with title \x27Machine Learning\x27 written on it",
   "A blackboard with \x272 + 2 = 4\x27 written in chalk",
   "A menu board showing \x27Coffee $3.50\x27 in large text",
   "A license plate with \x27ABC123\x27 on it",
   "A neon sign glowing \x27OPEN\x27 in red letters",
   "A newspaper headline \x27BREAKING NEWS\x27 in bold",
   "A price tag showing \x27$99.99\x27 clearly visible",
   "A street name sign \x27MAIN STREET\x27 on a pole"]

/-- Model of `main` in `stable_diffusion_image_gen.py`: raise when either
environment variable is absent, otherwise POST once per prompt (each
prompt's failure is caught and does not abort the rest).  `responses i`
is the status code and body answering the `i`-th POST; the second
component counts the POSTs issued. -/
def sd_main (apiKey hfEndpoint : Option String)
    (responses : Nat → Nat × InferResp) :
    Except String (List (Except String (List Nat))) × Nat :=
  match apiKey, hfEndpoint with
  | some _, some _ =>
    (.ok ((List.range sd_prompts.length).map fun i =>
      generate_image (responses i).1 (responses i).2), sd_prompts.length)
  | _, _ => (.error "HUGGINGFACE_API_KEY and HUGGINGFACE_ENDPOINT must be set", 0)

/-- Model of `main` in `newPersonImageGen.py`: additionally requires the
output path; the prompt is optional (defaulted), and exactly one POST is
issued on the happy path. -/
def np_main (apiKey hfEndpoint outPath _npPrompt : Option String)
    (responses : Nat → Nat × InferResp) :
    Except String (List (Except String (List Nat))) × Nat :=
  match apiKey, hfEndpoint with
  | some _, some _ =>
    match outPath with
    | none => (.error "NEW_PERSON_OUTPUT_IMAGE_PATH must be set", 0)
    | some _ => (.ok [generate_image (responses 0).1 (responses 0).2], 1)
  | _, _ => (.error "HUGGINGFACE_API_KEY and HUGGINGFACE_ENDPOINT must be set", 0)

/-! ## `infinitePersonImageGen.py` (`test_infiniteyou_api`)

The remote service's JSON bodies are embedded as records; `time.sleep`,
status printing and the generation-time bookkeeping lines (which only
affect what is printed) are not modelled.  The `output` handling code of
the `COMPLETED` polling branch (lines 203–227) and of the synchronous
branch (lines 271–292) is textually identical in the source and is
embedded once as `handleOutput`. -/

/-- The `output` object of a job response: `success` flag (Python
truthiness of `output.get("success")`), optional `image` payload and
optional `error` string. -/
structure OutputObj where
  success : Bool
  image : Option String
  error : Option String
deriving DecidableEq

/-- A JSON body from the submission or status endpoint together with its
HTTP status code.  `status`, `output` and `error` model the corresponding
optional JSON keys. -/
structure ApiResp where
  code : Nat
  status : Option String
  output : Option OutputObj
  error : Option String

/-- What the client ends up doing with a terminal response: saving the
image via `base64_to_image`, or printing one of the failure reports.  None
of these raise (`savedImage img` records the payload handed to
`base64_to_image`). -/
inductive Outcome where
  | savedImage (img : String)
  | noImageInResponse
  | apiError (msg : String)
  | noOutput
  | jobFailed (msg : String)
  | statusHttpError (code : Nat)
  | timedOut
deriving DecidableEq

/-- Shared `output` handling of the `COMPLETED` polling branch and the
synchronous branch: save the image exactly when `output` is present, its
`success` field is truthy and an `image` key exists; report (without
raising) otherwise. -/
def handleOutput : Option OutputObj → Outcome
  | none => .noOutput
  | some o =>
    if o.success then
      match o.image with
      | some img => .savedImage img
      | none => .noImageInResponse
    else .apiError (o.error.getD "Unknown error")

/-- Result of the polling loop: the terminal outcome, the number of status
GETs issued (the final value of `poll_count`), and how many iterations took
the non-terminal "not yet" branch. -/
structure LoopResult where
  outcome : Outcome
  polls : Nat
  notYet : Nat
deriving DecidableEq

/-- One unfolding per remaining allowed poll of the `while poll_count <
max_polls` loop (lines 173–257): sleep, increment `poll_count`, GET the
status.  A non-200 response aborts; `COMPLETED` and `FAILED` are terminal;
any other status is a "not yet" iteration.  Exhausted fuel reaches the
loop's `else` clause, the timeout report. -/
def pollAux (resp : Nat → ApiResp) : Nat → Nat → Nat → LoopResult
  | 0, polls, notYet => ⟨.timedOut, polls, notYet⟩
  | fuel + 1, polls, notYet =>
    let r := resp polls
    if r.code = 200 then
      if r.status = some "COMPLETED" then ⟨handleOutput r.output, polls + 1, notYet⟩
      else if r.status = some "FAILED" then
        ⟨.jobFailed (r.error.getD "Unknown error"), polls + 1, notYet⟩
      else pollAux resp fuel (polls + 1) (notYet + 1)
    else ⟨.statusHttpError r.code, polls + 1, notYet⟩

/-- The loop bound `max_polls = 2000` (line 170). -/
def max_polls : Nat := 2000

/-- The polling loop started with `poll_count = 0`, answering the `i`-th
status GET with `resp i`. -/
def pollLoop (resp : Nat → ApiResp) : LoopResult :=
  pollAux resp max_polls 0 0

/-- Environment variables read by `test_infiniteyou_api`. -/
structure InfEnv where
  runpodUrl : Option String
  runpodApiKey : Option String
  inputImagePath : Option String
  outputImagePath : Option String
  personPrompt : Option String

/-- How one invocation of `test_infiniteyou_api` ends: a printed error
report followed by `return`, a raised `ValueError`, or the submission
outcome. -/
inductive InfExit where
  | printedError (msg : String)
  | raisedError (msg : String)
  | polled (r : LoopResult)
  | sync (o : Outcome)
  | unexpectedFormat
  | submitHttpError (code : Nat)
deriving DecidableEq

/-- Model of `test_infiniteyou_api` (lines 36–305): validate the five
configuration values in source order, check the input image exists, then
POST the job; poll when the response is queued/in progress, otherwise
handle a synchronous `output`.  `inputOnDisk` models
`os.path.exists(input_image_path)`; `submit` is the POST response and
`poll i` the `i`-th status GET response.  The second component counts HTTP
requests issued. -/
def test_infiniteyou_api (e : InfEnv) (inputOnDisk : Bool) (submit : ApiResp)
    (poll : Nat → ApiResp) : InfExit × Nat :=
  match e.runpodUrl with
  | none => (.printedError "❌ Error: RUNPOD_URL environment variable not set", 0)
  | some _ =>
    match e.runpodApiKey with
    | none => (.printedError "❌ Error: RUNPOD_API_KEY environment variable not set", 0)
    | some _ =>
      match e.inputImagePath with
      | none => (.raisedError "INFINITE_INPUT_FACE_IMAGE_PATH must be set", 0)
      | some ip =>
        match e.outputImagePath with
        | none => (.raisedError "INFINITE_OUTPUT_IMAGE_PATH must be set", 0)
        | some _ =>
          match e.personPrompt with
          | none => (.raisedError "INFINITE_PERSON_PROMPT must be set", 0)
          | some _ =>
            if inputOnDisk = false then
              (.printedError ("❌ Error: Input image not found at " ++ ip), 0)
            else if submit.code = 200 then
              if submit.status = some "IN_QUEUE" ∨ submit.status = some "IN_PROGRESS" then
                let r := pollLoop poll
                (.polled r, 1 + r.polls)
              else if submit.output.isSome then (.sync (handleOutput submit.output), 1)
              else (.unexpectedFormat, 1)
            else (.submitHttpError submit.code, 1)

/-- Scripted stub service of the polling-loop test scenario: `IN_QUEUE` for
the first 3 status polls, then `COMPLETED` with a successful `output`
carrying the image payload `img`. -/
def stub_responses (img : String) : Nat → ApiResp :=
  fun i =>
    if i < 3 then ⟨200, some "IN_QUEUE", none, none⟩
    else ⟨200, some "COMPLETED", some ⟨true, some img, none⟩, none⟩

/-- A perfectly uniform (all-black) 128×128 crop. -/
def cropConst : Crop := fun _ => 0

/-- A crop that is black except for one white pixel at the origin. -/
def cropSpike : Crop :=
  fun p => if p = ((0 : Fin 128), (0 : Fin 128)) then 255 else 0

/-- Detection environment pairing the path `"a"` with the uniform crop and
every other path with the spiked crop. -/
def cexEnv : String → LoadResult :=
  fun s => if s = "a" then .faces [cropConst] else .faces [cropSpike]

/-! ## Lemmas about the embedded statistics -/

theorem sumSqDev_nonneg {ι : Type} [Fintype ι] (x : ι → ℝ) : 0 ≤ sumSqDev x :=
  Finset.sum_nonneg fun _ _ => mul_self_nonneg _

theorem covSum_comm {ι : Type} [Fintype ι] (x y : ι → ℝ) :
    covSum x y = covSum y x := by
  unfold covSum
  exact Finset.sum_congr rfl fun i _ => mul_comm _ _

theorem histcmp_correl_self {ι : Type} [Fintype ι] (x : ι → ℝ) :
    histcmp_correl x x = 1 := by
  unfold histcmp_correl
  by_cases h : sumSqDev x = 0
  · simp [h]
  · rw [if_neg (by simpa [mul_self_eq_zero] using h)]
    have hx : covSum x x = sumSqDev x := rfl
    rw [hx, Real.sqrt_mul_self (sumSqDev_nonneg x), div_self h]

theorem match_template_self {ι : Type} [Fintype ι] (x : ι → ℝ) :
    match_template_ccoeff_normed x x = 1 := by
  unfold match_template_ccoeff_normed
  by_cases h : sumSqDev x = 0
  · simp [h]
  · rw [if_neg h]
    have hx : covSum x x = sumSqDev x := rfl
    rw [hx, Real.sqrt_mul_self (sumSqDev_nonneg x), div_self h]

theorem histcmp_correl_comm {ι : Type} [Fintype ι] (x y : ι → ℝ) :
    histcmp_correl x y = histcmp_correl y x := by
  unfold histcmp_correl
  rw [mul_comm (sumSqDev x) (sumSqDev y), covSum_comm]

theorem match_template_comm_of_iff {ι : Type} [Fintype ι] (x y : ι → ℝ)
    (h : sumSqDev x = 0 ↔ sumSqDev y = 0) :
    match_template_ccoeff_normed x y = match_template_ccoeff_normed y x := by
  unfold match_template_ccoeff_normed
  by_cases hy : sumSqDev y = 0
  · rw [if_pos hy, if_pos (h.mpr hy)]
  · rw [if_neg hy, if_neg (fun hx => hy (h.mp hx)), covSum_comm,
      mul_comm (sumSqDev x) (sumSqDev y)]

theorem fmean_const {ι : Type} [Fintype ι] [Nonempty ι] (v : ℝ) :
    fmean (fun _ : ι => v) = v := by
  unfold fmean
  rw [Finset.sum_const, Finset.card_univ, nsmul_eq_mul, mul_comm,
    mul_div_assoc, div_self (by exact_mod_cast Fintype.card_ne_zero), mul_one]

theorem covSum_const_left {ι : Type} [Fintype ι] [Nonempty ι] (v : ℝ)
    (y : ι → ℝ) : covSum (fun _ => v) y = 0 := by
  unfold covSum
  refine Finset.sum_eq_zero fun i _ => ?_
  rw [fmean_const, sub_self, zero_mul]

theorem sumSqDev_const {ι : Type} [Fintype ι] [Nonempty ι] (v : ℝ) :
    sumSqDev (fun _ : ι => v) = 0 :=
  covSum_const_left v _

theorem sumSqDev_ne_zero_of_ne {ι : Type} [Fintype ι] (x : ι → ℝ) (p q : ι)
    (hpq : x p ≠ x q) : sumSqDev x ≠ 0 := by
  intro h0
  have hall := (Finset.sum_eq_zero_iff_of_nonneg
    (fun i (_ : i ∈ Finset.univ) => mul_self_nonneg (x i - fmean x))).mp h0
  have hp : x p - fmean x = 0 :=
    mul_self_eq_zero.mp (hall p (Finset.mem_univ p))
  have hq : x q - fmean x = 0 :=
    mul_self_eq_zero.mp (hall q (Finset.mem_univ q))
  exact hpq (by linarith [sub_eq_zero.mp hp, sub_eq_zero.mp hq])

theorem face_similarity_self (c : Crop) : face_similarity c c = 1 := by
  unfold face_similarity
  rw [histcmp_correl_self, match_template_self]
  norm_num

/-! ## Claims about `compare_faces.py` -/

/-- C4: starting from no `comparisons.csv`, after `N+1` successful runs the
file is exactly the header line followed by the `N+1` data rows in order
(hence `N+2` lines), the header having been written only by the run that
created the file; after `0` runs no file exists. -/
theorem csv_header_once_and_line_count (rows : Nat → String × String × ℝ)
    (N : Nat) :
    csv_after_runs rows 0 = none
    ∧ csv_after_runs rows (N + 1)
        = some (CsvLine.header :: (List.range (N + 1)).map
            fun k => CsvLine.data (rows k).1 (rows k).2.1 (rows k).2.2)
    ∧ (CsvLine.header :: (List.range (N + 1)).map
        fun k => CsvLine.data (rows k).1 (rows k).2.1 (rows k).2.2).length
        = (N + 1) + 1 := by
  refine ⟨rfl, ?_, by simp⟩
  induction N with
  | zero => simp [csv_after_runs, append_comparison, List.range_succ]
  | succ n ih =>
    rw [csv_after_runs, ih]
    simp [append_comparison, List.range_succ]

/-- C5: whenever face detection on an image yields a crop, comparing the
image against itself scores exactly `1`: both the histogram-correlation
term and the template-matching term are at the library maximum `1`, and
their average is `1`. -/
theorem self_comparison_score_one (env : String → LoadResult) (p : String)
    (c : Crop) (h : detect_face env p = .ok c) :
    (compute_face_similarity env p p).1 = .ok 1 := by
  simp [compute_face_similarity, h, face_similarity_self]

/-- Witness for C5 at a concrete environment and path. -/
theorem self_comparison_score_one_witness :
    (compute_face_similarity (fun _ => .faces [cropConst]) "x" "x").1 = .ok 1 :=
  self_comparison_score_one (fun _ => .faces [cropConst]) "x" cropConst rfl

/-- C7: when the detector finds no face in either image, the raised error
is the wrapped `No face detected` message naming the first path, and
detection was invoked on the first path only (the second is never
reached). -/
theorem no_face_error_names_first_image (env : String → LoadResult)
    (p1 p2 : String) (h1 : env p1 = .faces []) (_h2 : env p2 = .faces []) :
    compute_face_similarity env p1 p2
      = (.error ("Error comparing faces: " ++ ("No face detected in image: " ++ p1)),
          [p1]) := by
  have hd : detect_face env p1 = .error ("No face detected in image: " ++ p1) := by
    unfold detect_face
    rw [h1]
  simp [compute_face_similarity, hd]

/-- Witness for C7 at a concrete faceless environment. -/
theorem no_face_error_names_first_image_witness :
    compute_face_similarity (fun _ => .faces []) "left.jpg" "right.jpg"
      = (.error ("Error comparing faces: "
            ++ ("No face detected in image: " ++ "left.jpg")), ["left.jpg"]) :=
  no_face_error_names_first_image (fun _ => .faces []) "left.jpg" "right.jpg" rfl rfl

/-- C10 (counterexample): the similarity score is not symmetric in the two
image paths.  With a perfectly uniform crop for path `"a"` and a
non-uniform crop for path `"b"`, the template-matching term is `0` with the
uniform crop as image but `1` with it as template (OpenCV's
constant-template guard), so the two orders differ by `1/2`. -/
theorem face_similarity_asymmetric_on_degenerate_crop :
    (compute_face_similarity cexEnv "a" "b").1
      ≠ (compute_face_similarity cexEnv "b" "a").1 := by
  have da : detect_face cexEnv "a" = .ok cropConst := by
    simp [detect_face, cexEnv]
  have db : detect_face cexEnv "b" = .ok cropSpike := by
    simp [detect_face, cexEnv]
  have hA : cropToReal cropConst = fun _ => (0 : ℝ) := by
    funext p
    simp [cropToReal, cropConst]
  have hSA : sumSqDev (cropToReal cropConst) = 0 := by
    rw [hA]
    exact sumSqDev_const 0
  have hSB : sumSqDev (cropToReal cropSpike) ≠ 0 := by
    refine sumSqDev_ne_zero_of_ne _ ((0 : Fin 128), (0 : Fin 128))
      ((0 : Fin 128), (1 : Fin 128)) ?_
    norm_num [cropToReal, cropSpike]
    exact_mod_cast (by decide : ¬((255 : Fin 256) : ℕ) = 0)
  have hmtAB : match_template_ccoeff_normed (cropToReal cropConst)
      (cropToReal cropSpike) = 0 := by
    unfold match_template_ccoeff_normed
    rw [if_neg hSB, hA, covSum_const_left, zero_div]
  have hmtBA : match_template_ccoeff_normed (cropToReal cropSpike)
      (cropToReal cropConst) = 1 := by
    unfold match_template_ccoeff_normed
    rw [if_pos hSA]
  simp only [compute_face_similarity, da, db]
  intro heq
  have h3 : face_similarity cropConst cropSpike
      = face_similarity cropSpike cropConst := Except.ok.inj heq
  unfold face_similarity at h3
  rw [hmtAB, hmtBA, histcmp_correl_comm] at h3
  linarith

/-- C10 (amended): the score is symmetric in the two paths whenever the two
detected crops' pixel variances vanish together (in particular whenever
both crops are non-constant, which holds for any crop a cascade detector
can fire on). -/
theorem face_similarity_symmetric_nondegenerate (env : String → LoadResult)
    (p1 p2 : String) (c1 c2 : Crop)
    (h1 : detect_face env p1 = .ok c1) (h2 : detect_face env p2 = .ok c2)
    (hvar : sumSqDev (cropToReal c1) = 0 ↔ sumSqDev (cropToReal c2) = 0) :
    (compute_face_similarity env p1 p2).1
      = (compute_face_similarity env p2 p1).1 := by
  simp only [compute_face_similarity, h1, h2]
  have hfs : face_similarity c1 c2 = face_similarity c2 c1 := by
    unfold face_similarity
    rw [histcmp_correl_comm, match_template_comm_of_iff _ _ hvar]
  rw [hfs]

/-- Witness for the amended C10 at a concrete environment. -/
theorem face_similarity_symmetric_nondegenerate_witness :
    (compute_face_similarity (fun _ => .faces [cropSpike]) "x" "y").1
      = (compute_face_similarity (fun _ => .faces [cropSpike]) "y" "x").1 :=
  face_similarity_symmetric_nondegenerate (fun _ => .faces [cropSpike])
    "x" "y" cropSpike cropSpike rfl rfl Iff.rfl

/-! ## Base64 round trip and the text-to-image clients -/

theorem b64Index_b64Char (n : Nat) (h : n < 64) :
    b64Index (b64Char n) = some n := by
  have hall : ∀ m, m < 64 → b64Index (b64Char m) = some m := by decide
  exact hall n h

theorem b64Char_ne_eq_sign (n : Nat) : b64Char n ≠ '=' := by
  have hall : ∀ m, m < 64 → b64Alphabet.getD m 'A' ≠ '=' := by decide
  exact hall (n % 64) (Nat.mod_lt _ (by norm_num))

theorem b64Char_ne_comma (n : Nat) : b64Char n ≠ ',' := by
  have hall : ∀ m, m < 64 → b64Alphabet.getD m 'A' ≠ ',' := by decide
  exact hall (n % 64) (Nat.mod_lt _ (by norm_num))

theorem comma_ne_b64Char (n : Nat) : ',' ≠ b64Char n :=
  (b64Char_ne_comma n).symm

theorem comma_not_mem_b64encode : ∀ B : List Nat, ',' ∉ b64encode B
  | [] => List.not_mem_nil _
  | [_] => by
    simp [b64encode, comma_ne_b64Char, (show (',' : Char) ≠ '=' by decide)]
  | [_, _] => by
    simp [b64encode, comma_ne_b64Char, (show (',' : Char) ≠ '=' by decide)]
  | _ :: _ :: _ :: rest => by
    simp [b64encode, comma_ne_b64Char]
    exact comma_not_mem_b64encode rest

theorem splitComma_no_comma : ∀ l : List Char, ',' ∉ l → splitComma l = [l]
  | [], _ => rfl
  | c :: rest, h => by
    have hc : c ≠ ',' := by
      intro hh
      subst hh
      exact h (List.mem_cons_self _ _)
    have hrest := splitComma_no_comma rest fun hm => h (List.mem_cons_of_mem c hm)
    simp [splitComma, hc, hrest]

theorem splitComma_append :
    ∀ h t : List Char, ',' ∉ h → splitComma (h ++ ',' :: t) = h :: splitComma t
  | [], t, _ => by simp [splitComma]
  | c :: rest, t, hno => by
    have hc : c ≠ ',' := by
      intro hh
      subst hh
      exact hno (List.mem_cons_self _ _)
    have ih := splitComma_append rest t fun hm => hno (List.mem_cons_of_mem c hm)
    simp [splitComma, hc, ih]

theorem b64decode_b64encode :
    ∀ B : List Nat, (∀ b ∈ B, b < 256) → b64decode (b64encode B) = some B
  | [], _ => rfl
  | [a], h => by
    have ha : a < 256 := h a (by simp)
    have h1 : a / 4 < 64 := by omega
    have h2 : a % 4 * 16 < 64 := by omega
    simp [b64encode, b64decode, b64Index_b64Char _ h1, b64Index_b64Char _ h2]
    omega
  | [a, b], h => by
    have ha : a < 256 := h a (by simp)
    have hb : b < 256 := h b (by simp)
    have h1 : a / 4 < 64 := by omega
    have h2 : a % 4 * 16 + b / 16 < 64 := by omega
    have h3 : b % 16 * 4 < 64 := by omega
    simp [b64encode, b64decode, b64Index_b64Char _ h1, b64Index_b64Char _ h2,
      b64Index_b64Char _ h3, b64Char_ne_eq_sign]
    omega
  | a :: b :: c :: rest, h => by
    have ha : a < 256 := h a (by simp)
    have hb : b < 256 := h b (by simp)
    have hc : c < 256 := h c (by simp)
    have ih := b64decode_b64encode rest fun x hx => h x (by simp [hx])
    have h1 : a / 4 < 64 := by omega
    have h2 : a % 4 * 16 + b / 16 < 64 := by omega
    have h3 : b % 16 * 4 + c / 64 < 64 := by omega
    have h4 : c % 64 < 64 := by omega
    simp [b64encode, b64decode, b64Index_b64Char _ h1, b64Index_b64Char _ h2,
      b64Index_b64Char _ h3, b64Index_b64Char _ h4, b64Char_ne_eq_sign, ih]
    omega

/-- C6: if the endpoint answers with a textual payload made of a header
containing exactly one comma followed by the base64 encoding of the raw
bytes `B`, then `generate_image` (shared by both text-to-image clients)
produces exactly `B`: dropping everything up to the comma and
base64-decoding is a left inverse of prepending the header to the base64
encoding. -/
theorem saved_bytes_roundtrip (hdr : List Char) (B : List Nat)
    (hc : ',' ∉ hdr) (hB : ∀ b ∈ B, b < 256) :
    generate_image 200 (.str (hdr ++ ',' :: b64encode B)) = .ok B := by
  have hmem : ',' ∈ hdr ++ ',' :: b64encode B :=
    List.mem_append_right _ (List.mem_cons_self _ _)
  simp [generate_image, decode_textual, hmem,
    splitComma_append hdr (b64encode B) hc,
    splitComma_no_comma _ (comma_not_mem_b64encode B),
    b64decode_b64encode B hB]

/-- Witness for C6 at a concrete header and byte list. -/
theorem saved_bytes_roundtrip_witness :
    generate_image 200 (.str (['d', 'a', 't', 'a'] ++ ',' :: b64encode [0, 255, 7]))
      = .ok [0, 255, 7] :=
  saved_bytes_roundtrip ['d', 'a', 't', 'a'] [0, 255, 7] (by decide) (by decide)

/-! ## Claims about `infinitePersonImageGen.py` -/

theorem pollAux_step_nonterm (resp : Nat → ApiResp) (fuel polls notYet : Nat)
    (h200 : (resp polls).code = 200)
    (hC : (resp polls).status ≠ some "COMPLETED")
    (hF : (resp polls).status ≠ some "FAILED") :
    pollAux resp (fuel + 1) polls notYet = pollAux resp fuel (polls + 1) (notYet + 1) := by
  simp [pollAux, h200, hC, hF]

theorem pollAux_step_completed (resp : Nat → ApiResp) (fuel polls notYet : Nat)
    (h200 : (resp polls).code = 200)
    (hC : (resp polls).status = some "COMPLETED") :
    pollAux resp (fuel + 1) polls notYet
      = ⟨handleOutput (resp polls).output, polls + 1, notYet⟩ := by
  simp [pollAux, h200, hC]

theorem pollAux_polls_le (resp : Nat → ApiResp) :
    ∀ fuel polls notYet, (pollAux resp fuel polls notYet).polls ≤ polls + fuel
  | 0, polls, notYet => by simp [pollAux]
  | fuel + 1, polls, notYet => by
    by_cases h200 : (resp polls).code = 200
    · by_cases hC : (resp polls).status = some "COMPLETED"
      · rw [pollAux_step_completed resp fuel polls notYet h200 hC]
        simp
      · by_cases hF : (resp polls).status = some "FAILED"
        · simp [pollAux, h200, hC, hF]
        · rw [pollAux_step_nonterm resp fuel polls notYet h200 hC hF]
          have := pollAux_polls_le resp fuel (polls + 1) (notYet + 1)
          omega
    · simp [pollAux, h200]

theorem pollAux_timeout (resp : Nat → ApiResp) :
    ∀ fuel polls notYet,
      (∀ i, polls ≤ i → i < polls + fuel →
        (resp i).code = 200 ∧ (resp i).status ≠ some "COMPLETED"
          ∧ (resp i).status ≠ some "FAILED") →
      pollAux resp fuel polls notYet = ⟨.timedOut, polls + fuel, notYet + fuel⟩
  | 0, polls, notYet, _ => by simp [pollAux]
  | fuel + 1, polls, notYet, h => by
    obtain ⟨h200, hC, hF⟩ := h polls (le_refl _) (by omega)
    rw [pollAux_step_nonterm resp fuel polls notYet h200 hC hF,
      pollAux_timeout resp fuel (polls + 1) (notYet + 1)
        (fun i hi1 hi2 => h i (by omega) (by omega))]
    simp only [LoopResult.mk.injEq]
    refine ⟨trivial, by omega, by omega⟩

/-- C8: the polling loop always terminates within `max_polls = 2000` status
polls, and when no terminal response (non-200 code, `COMPLETED` or
`FAILED`) occurs among the first 2000 polls it returns the `timedOut`
outcome — a reported soft failure, not a raised exception. -/
theorem poll_loop_bounded_and_timeout_soft (resp : Nat → ApiResp) :
    (pollLoop resp).polls ≤ max_polls
    ∧ ((∀ i, i < max_polls →
          (resp i).code = 200 ∧ (resp i).status ≠ some "COMPLETED"
            ∧ (resp i).status ≠ some "FAILED") →
        pollLoop resp = ⟨.timedOut, max_polls, max_polls⟩) := by
  constructor
  · have := pollAux_polls_le resp max_polls 0 0
    simpa [pollLoop] using this
  · intro h
    have := pollAux_timeout resp max_polls 0 0 fun i _ hi2 => h i (by omega)
    simpa [pollLoop] using this

/-- Witness for C8: a service that always answers `IN_QUEUE` exhausts the
2000 polls and times out softly. -/
theorem poll_loop_bounded_and_timeout_soft_witness :
    pollLoop (fun _ => ⟨200, some "IN_QUEUE", none, none⟩)
        = ⟨.timedOut, max_polls, max_polls⟩
    ∧ (pollLoop (fun _ => ⟨200, some "IN_QUEUE", none, none⟩)).polls ≤ max_polls :=
  ⟨(poll_loop_bounded_and_timeout_soft _).2 (fun _ _ => ⟨rfl, by decide, by decide⟩),
   (poll_loop_bounded_and_timeout_soft _).1⟩

/-- C1: against the scripted stub that answers `IN_QUEUE` for the first 3
polls and `COMPLETED` (with a successful output) on the 4th, the loop takes
exactly 3 "not yet" iterations, issues 4 polls, and ends by handing the
output image to `base64_to_image`. -/
theorem polling_stub_three_not_yet_then_saves (img : String) :
    pollLoop (stub_responses img) = ⟨.savedImage img, 4, 3⟩ := by
  have hq : ∀ i, i < 3 → stub_responses img i = ⟨200, some "IN_QUEUE", none, none⟩ := by
    intro i hi
    simp [stub_responses, hi]
  have h0 := hq 0 (by norm_num)
  have h1 := hq 1 (by norm_num)
  have h2 := hq 2 (by norm_num)
  have h3 : stub_responses img 3
      = ⟨200, some "COMPLETED", some ⟨true, some img, none⟩, none⟩ := by
    simp [stub_responses]
  show pollAux (stub_responses img) 2000 0 0 = ⟨.savedImage img, 4, 3⟩
  rw [show (2000 : Nat) = 1999 + 1 by norm_num,
    pollAux_step_nonterm _ _ _ _ (by rw [h0]) (by rw [h0]; decide) (by rw [h0]; decide),
    show (1999 : Nat) = 1998 + 1 by norm_num,
    pollAux_step_nonterm _ _ _ _ (by rw [h1]) (by rw [h1]; decide) (by rw [h1]; decide),
    show (1998 : Nat) = 1997 + 1 by norm_num,
    pollAux_step_nonterm _ _ _ _ (by rw [h2]) (by rw [h2]; decide) (by rw [h2]; decide),
    show (1997 : Nat) = 1996 + 1 by norm_num,
    pollAux_step_completed _ _ _ _ (by rw [h3]) (by rw [h3]), h3]
  simp [handleOutput]

/-- C9: in the shared `output` handling of the `COMPLETED` polling branch
and the synchronous branch, the image is saved exactly when the `output`
object is present with a truthy `success` and an `image` key; a falsy
`success` yields the printed `API returned error` report (no save, no
exception) even when an `image` field is present. -/
theorem image_saved_iff_success_and_image (oo : Option OutputObj) :
    ((∃ img, handleOutput oo = .savedImage img)
        ↔ ∃ o, oo = some o ∧ o.success = true ∧ o.image.isSome = true)
    ∧ (∀ o, oo = some o → o.success = false →
        handleOutput oo = .apiError (o.error.getD "Unknown error")) := by
  rcases oo with _ | o
  · refine ⟨by simp [handleOutput], ?_⟩
    intro o h
    exact absurd h (by simp)
  · refine ⟨?_, ?_⟩
    · cases hs : o.success
      · simp [handleOutput, hs]
      · rcases hi : o.image with _ | img
        · simp [handleOutput, hs, hi]
        · simp [handleOutput, hs, hi]
    · intro o' ho' hsucc
      have : o = o' := by injection ho'
      subst this
      simp [handleOutput, hsucc]

/-- Witness for C9: falsy `success` with an `image` present is reported,
not saved. -/
theorem image_saved_iff_success_and_image_witness :
    handleOutput (some ⟨false, some "payload", some "boom"⟩) = .apiError "boom" :=
  (image_saved_iff_success_and_image (some ⟨false, some "payload", some "boom"⟩)).2
    _ rfl rfl

/-- C2: each of the five required configuration values, when absent (and
the ones checked before it present), makes `test_infiniteyou_api` fail
before any HTTP request with that value's own error message; the five
messages are pairwise distinct, so the report identifies the missing
value. -/
theorem missing_config_named_error (e : InfEnv) (onDisk : Bool)
    (submit : ApiResp) (poll : Nat → ApiResp) :
    (e.runpodUrl = none →
      test_infiniteyou_api e onDisk submit poll
        = (.printedError "❌ Error: RUNPOD_URL environment variable not set", 0))
    ∧ (e.runpodUrl.isSome = true → e.runpodApiKey = none →
      test_infiniteyou_api e onDisk submit poll
        = (.printedError "❌ Error: RUNPOD_API_KEY environment variable not set", 0))
    ∧ (e.runpodUrl.isSome = true → e.runpodApiKey.isSome = true →
        e.inputImagePath = none →
      test_infiniteyou_api e onDisk submit poll
        = (.raisedError "INFINITE_INPUT_FACE_IMAGE_PATH must be set", 0))
    ∧ (e.runpodUrl.isSome = true → e.runpodApiKey.isSome = true →
        e.inputImagePath.isSome = true → e.outputImagePath = none →
      test_infiniteyou_api e onDisk submit poll
        = (.raisedError "INFINITE_OUTPUT_IMAGE_PATH must be set", 0))
    ∧ (e.runpodUrl.isSome = true → e.runpodApiKey.isSome = true →
        e.inputImagePath.isSome = true → e.outputImagePath.isSome = true →
        e.personPrompt = none →
      test_infiniteyou_api e onDisk submit poll
        = (.raisedError "INFINITE_PERSON_PROMPT must be set", 0))
    ∧ List.Pairwise (· ≠ ·)
        ["❌ Error: RUNPOD_URL environment variable not set",
         "❌ Error: RUNPOD_API_KEY environment variable not set",
         "INFINITE_INPUT_FACE_IMAGE_PATH must be set",
         "INFINITE_OUTPUT_IMAGE_PATH must be set",
         "INFINITE_PERSON_PROMPT must be set"] := by
  obtain ⟨u, k, i, o, p⟩ := e
  refine ⟨?_, ?_, ?_, ?_, ?_, by decide⟩
  · rintro rfl
    rfl
  · rintro hu rfl
    obtain ⟨uv, rfl⟩ := Option.isSome_iff_exists.mp hu
    rfl
  · rintro hu hk rfl
    obtain ⟨uv, rfl⟩ := Option.isSome_iff_exists.mp hu
    obtain ⟨kv, rfl⟩ := Option.isSome_iff_exists.mp hk
    rfl
  · rintro hu hk hi rfl
    obtain ⟨uv, rfl⟩ := Option.isSome_iff_exists.mp hu
    obtain ⟨kv, rfl⟩ := Option.isSome_iff_exists.mp hk
    obtain ⟨iv, rfl⟩ := Option.isSome_iff_exists.mp hi
    rfl
  · rintro hu hk hi ho rfl
    obtain ⟨uv, rfl⟩ := Option.isSome_iff_exists.mp hu
    obtain ⟨kv, rfl⟩ := Option.isSome_iff_exists.mp hk
    obtain ⟨iv, rfl⟩ := Option.isSome_iff_exists.mp hi
    obtain ⟨ov, rfl⟩ := Option.isSome_iff_exists.mp ho
    rfl

/-- Witness for C2 with only the input-image path absent. -/
theorem missing_config_named_error_witness :
    test_infiniteyou_api
        ⟨some "https://api.runpod.ai/v2/x/run", some "key", none, some "out.png", some "p"⟩
        true ⟨200, none, none, none⟩ (fun _ => ⟨200, none, none, none⟩)
      = (.raisedError "INFINITE_INPUT_FACE_IMAGE_PATH must be set", 0) :=
  (missing_config_named_error _ _ _ _).2.2.1 rfl rfl rfl

/-- C3: for every script and every required environment variable, running
with that variable unset issues zero HTTP requests (the comparator issues
none under any circumstances, having no network code at all). -/
theorem no_http_call_when_env_missing :
    (∀ (e : InfEnv) (onDisk : Bool) (submit : ApiResp) (poll : Nat → ApiResp),
      (e.runpodUrl = none ∨ e.runpodApiKey = none ∨ e.inputImagePath = none
        ∨ e.outputImagePath = none ∨ e.personPrompt = none) →
      (test_infiniteyou_api e onDisk submit poll).2 = 0)
    ∧ (∀ (apiKey hfEndpoint : Option String) (responses : Nat → Nat × InferResp),
      (apiKey = none ∨ hfEndpoint = none) →
      (sd_main apiKey hfEndpoint responses).2 = 0)
    ∧ (∀ (apiKey hfEndpoint outPath npPrompt : Option String)
        (responses : Nat → Nat × InferResp),
      (apiKey = none ∨ hfEndpoint = none ∨ outPath = none) →
      (np_main apiKey hfEndpoint outPath npPrompt responses).2 = 0)
    ∧ (∀ (dPath iPath : Option String) (onDisk : String → Bool)
        (env : String → LoadResult) (csv : Option (List CsvLine)),
      (compare_main dPath iPath onDisk env csv).2.2 = 0) := by
  refine ⟨?_, ?_, ?_, ?_⟩
  · rintro ⟨u, k, i, o, p⟩ onDisk submit poll h
    rcases u with _ | u
    · rfl
    rcases k with _ | k
    · rfl
    rcases i with _ | i
    · rfl
    rcases o with _ | o
    · rfl
    rcases p with _ | p
    · rfl
    simp at h
  · rintro k ep r h
    rcases k with _ | k
    · rfl
    rcases ep with _ | ep
    · rfl
    simp at h
  · rintro k ep o pr r h
    rcases k with _ | k
    · rfl
    rcases ep with _ | ep
    · rfl
    rcases o with _ | o
    · rfl
    simp at h
  · intro dp ip onDisk env csv
    rcases dp with _ | d
    · rfl
    rcases ip with _ | i
    · rfl
    simp only [compare_main]
    split
    · rfl
    split
    · rfl
    split <;> rfl

/-- Witness for C3: one missing-variable run of each script performs zero
HTTP requests. -/
theorem no_http_call_when_env_missing_witness :
    (test_infiniteyou_api ⟨none, none, none, none, none⟩ true
        ⟨200, none, none, none⟩ (fun _ => ⟨200, none, none, none⟩)).2 = 0
    ∧ (sd_main none none (fun _ => (200, .rawBytes []))).2 = 0
    ∧ (np_main none none none none (fun _ => (200, .rawBytes []))).2 = 0
    ∧ (compare_main none none (fun _ => true) (fun _ => .unreadable) none).2.2 = 0 :=
  ⟨no_http_call_when_env_missing.1 _ _ _ _ (Or.inl rfl),
   no_http_call_when_env_missing.2.1 _ _ _ (Or.inl rfl),
   no_http_call_when_env_missing.2.2.1 _ _ _ _ _ (Or.inl rfl),
   no_http_call_when_env_missing.2.2.2 _ _ _ _ _⟩
